import Mathlib

/-!
Verification of the per-user conversation orchestrator of the
`transcriptor-genericoc` repository (`src/app/whatsapp_monitor.js`).

The development shallowly embeds the session state machine
(`handleBotConversation`), the artifact pipeline (`handleMediaMessage`),
the hand-off result mapping (`sendDocumentsToAPI`) and the report
formatter (`formatReportForWhatsApp`).  External effects (message-send
transport, file writes, the HTTP call, audio transcoding) are modelled by
per-event oracles carried on the event record, and replies are collected
as an explicit output list.
-/

set_option maxHeartbeats 1000000

namespace Transcriptor

/-- Model of JavaScript `String.prototype.trim` as used on `message.body`
(`whatsapp_monitor.js:423`): whitespace is removed from both ends of the
string.  (JS trims a slightly larger whitespace class than
`Char.isWhitespace`; the difference plays no role in the properties
proved here, which only involve the ASCII whitespace characters.) -/
def jsTrim (str : String) : String :=
  String.mk (((str.data.dropWhile Char.isWhitespace).reverse.dropWhile
    Char.isWhitespace).reverse)

/-- Model of JavaScript `String.prototype.toLowerCase` as used on the
finalize-keyword comparison (`whatsapp_monitor.js:555`).  The tokens
compared against are ASCII, where `Char.toLower` agrees with JS. -/
def lowerStr (str : String) : String :=
  String.mk (str.data.map Char.toLower)

/-- `isValidPin` (`whatsapp_monitor.js:145-147`): the credential matches
the regular expression `^\d{6}$`, i.e. it is exactly six ASCII digits. -/
def isValidPin (pin : String) : Bool :=
  pin.data.length == 6 && pin.data.all Char.isDigit

/-- Session states (`SESSION_STATES`, `whatsapp_monitor.js:56-60`).  The
spec names them AWAITING_PIN, AUTHENTICATED and COLLECTING; the initial
`null` state (spec: UNAUTHENTICATED) is modelled by `Option.none`. -/
inductive SState
  | waiting_pin
  | authenticated
  | documenting_visit
deriving DecidableEq

/-- Inbound message kinds (`message.type` in whatsapp-web.js): `chat` is
plain text; `ptt` and `audio` are voice notes; `image` and `document`
are other media. -/
inductive MsgType
  | chat
  | ptt
  | audio
  | image
  | document
deriving DecidableEq

/-- Vital signs of an extraction result (`reportData.vitals`,
`whatsapp_monitor.js:218-233`).  Field values are interpolated into the
report as text, so they are modelled as strings; `none` models an
absent (or JS-falsy) field. -/
structure Vitals where
  bp_systolic : Option String
  bp_diastolic : Option String
  hr : Option String
  temp_c : Option String
  spo2 : Option String
deriving DecidableEq

/-- One administered medication (`whatsapp_monitor.js:243-252`), with
optional `name`, `dose`, `route` and `time` fields. -/
structure MedAdministered where
  name : Option String
  dose : Option String
  route : Option String
  time : Option String
deriving DecidableEq

/-- Structured extraction result (`reportData` consumed by
`formatReportForWhatsApp`, `whatsapp_monitor.js:211-288`).  Every field
is optional; `none` models an absent (or JS-falsy) field. -/
structure ReportData where
  patient_state : Option String
  vitals : Option Vitals
  medications_in_use : Option (List String)
  medications_administered : Option (List MedAdministered)
  materials_used : Option (List String)
  interventions : Option (List String)
  recommendations : Option (List String)
  observations : Option String
  data_processamento : Option String
deriving DecidableEq

/-- Behaviour of the extraction collaborator for one hand-off call
(`axios.post` at `whatsapp_monitor.js:181-208`):
`appSuccess` models `response.data.sucesso = true` with payload `dados`;
`appFailure` models `sucesso = false` with message `response.data.erro`;
`transportError` models a thrown transport error (timeout, connection
failure) whose `error.message` is the carried string. -/
inductive ApiResponse
  | appSuccess (dados : ReportData)
  | appFailure (erro : String)
  | transportError (msg : String)

/-- Result record returned by `sendDocumentsToAPI`
(`whatsapp_monitor.js:188-208`): a `success` flag, optional `data`, and
optional `error` string — exactly the object shapes returned by the
three `return` statements of the function. -/
structure SendResult where
  success : Bool
  data : Option ReportData
  error : Option String
deriving DecidableEq

/-- Per-user session record (`getUserSession`,
`whatsapp_monitor.js:65-75`): `state` (initially `null`), the last
accepted `pin`, and the two accumulators `visitDocuments` (artifact
file references) and `visitTexts` (free-text notes). -/
structure Session where
  state : Option SState
  pin : Option String
  visitDocuments : List String
  visitTexts : List String
deriving DecidableEq

/-- One inbound message event together with the per-event behaviour of
the external collaborators that processing it may consult:
`mediaOk` — `message.downloadMedia()` yields usable media
(non-null, with a mimetype); `mimeExt` — the extension derived from the
mimetype (with the `ogg`/`bin` fallback already applied);
`ffmpegAvailable` / `convertOk` — outcome of `checkFFmpegAvailable` and
`convertAudioToWav` for this event; `api` — the extraction
collaborator's behaviour if this event triggers a hand-off. -/
structure Event where
  mtype : MsgType
  body : String
  msgId : String
  timestamp : Nat
  hasMedia : Bool
  mediaOk : Bool
  mimeExt : String
  ffmpegAvailable : Bool
  convertOk : Bool
  api : ApiResponse

/-- The multipart hand-off request assembled by `sendDocumentsToAPI`
(`whatsapp_monitor.js:156-178`): the `api_key` field (the process-global
`GEMINI_API_KEY`), all collected `texts`, and the collected files (named
by their stored references; the store always holds the just-written
files, so the `fs.existsSync` filter keeps all of them). -/
structure HandoffPayload where
  api_key : String
  texts : List String
  files : List String
deriving DecidableEq

/-- Observable outputs of processing one event: each `sendBotMessage`
reply text, and each hand-off request issued to the extraction
collaborator. -/
inductive Output
  | reply (text : String)
  | handoff (payload : HandoffPayload)
deriving DecidableEq

/-- Initial greeting (`whatsapp_monitor.js:465`). -/
def greetingMsg : String := "Olá! Envie o seu PIN para realizar o login."

/-- Menu reply sent on PIN acceptance and on re-authentication
(`whatsapp_monitor.js:480` and `whatsapp_monitor.js:532`, identical). -/
def menuMsg : String :=
  "PIN aceito! ✅\n\nO que você deseja fazer?\n\n1️⃣ Ver visitas agendadas\n2️⃣ Documentar visita\n\nDigite 1 ou 2 para escolher uma opção."

/-- Invalid-PIN prompt (`whatsapp_monitor.js:494`). -/
def pinInvalidMsg : String :=
  "PIN inválido. Por favor, envie um PIN de 6 dígitos."

/-- Placeholder reply for menu option 1 (`whatsapp_monitor.js:508`). -/
def scheduleMsg : String :=
  "📅 Funcionalidade \"Ver visitas agendadas\" em desenvolvimento.\n\nDigite 2 para documentar visita ou envie um novo PIN para reiniciar."

/-- Collection-mode instructions (`whatsapp_monitor.js:519`). -/
def docModeMsg : String :=
  "📝 Modo documentação ativado!\n\nAberto a receber os documentos da visita:\n• Envie arquivos, fotos, áudios ou texto escrito\n• Digite \"0\" ou \"sair\" quando terminar"

/-- Invalid-menu-option prompt (`whatsapp_monitor.js:543`). -/
def invalidOptionMsg : String :=
  "Opção inválida. Digite:\n1️⃣ Ver visitas agendadas\n2️⃣ Documentar visita"

/-- Processing notice sent before the hand-off call
(`whatsapp_monitor.js:562`). -/
def processingMsg : String :=
  "⏳ Processando dados com IA...\n\nAguarde enquanto analiso os documentos da visita."

/-- Completion notice sent after a successful report
(`whatsapp_monitor.js:576`). -/
def completionMsg : String :=
  "\n✅ Documentação da visita concluída com sucesso!\n\nDigite um novo PIN para iniciar uma nova sessão."

/-- Media-received acknowledgment (`whatsapp_monitor.js:444`). -/
def docReceivedMsg : String :=
  "✅ Documento(s) recebido(s) e salvo(s)!\n\nContinue enviando mais documentos ou digite \"0\" ou \"sair\" para finalizar."

/-- Text-note-received acknowledgment (`whatsapp_monitor.js:612`). -/
def textReceivedMsg : String :=
  "✅ Texto recebido e salvo!\n\nContinue enviando mais documentos ou digite \"0\" ou \"sair\" para finalizar."

/-- Failure reply template for a failed hand-off
(`whatsapp_monitor.js:588`), used for application-level and
transport-level failures alike. -/
def apiErrorText (err : String) : String :=
  "❌ Erro ao processar documentos:\n" ++ err ++ "\n\nDigite um novo PIN para tentar novamente."

/-- Rendering of the processing timestamp
(`new Date(...).toLocaleString` with the pt-BR locale,
`whatsapp_monitor.js:283`).  The locale rendering is a JS builtin
outside the embedding; it is modelled as the identity — the properties
proved here depend only on whether the timestamp section is present. -/
def ptBRDateString (iso : String) : String := iso

/-- Bullet-list rendering used by the list sections of the formatter
(the `forEach` loops at `whatsapp_monitor.js:237`, `256`, `264`,
`272`). -/
def bulletLines (items : List String) : String :=
  String.join (items.map (fun it => "• " ++ it ++ "\n"))

/-- Rendering of one administered medication
(`whatsapp_monitor.js:245-251`): the name falls back to the `N/A`
placeholder when absent (`med.name || 'N/A'`), while the dose, route and
time sub-lines are emitted only when present. -/
def medEntry (med : MedAdministered) : String :=
  "• *" ++ med.name.getD "N/A" ++ "*\n"
  ++ (match med.dose with
      | some d => "  Dose: " ++ d ++ "\n"
      | none => "")
  ++ (match med.route with
      | some rt => "  Via: " ++ rt ++ "\n"
      | none => "")
  ++ (match med.time with
      | some t => "  Horário: " ++ t ++ "\n"
      | none => "")
  ++ "\n"

/-- Vital-signs block (`whatsapp_monitor.js:218-233`): emitted only when
`vitals` is present; inside it each line is emitted only when its
field(s) are present (blood pressure requires both components). -/
def vitalsSection : Option Vitals → String
  | none => ""
  | some v =>
    "🩺 *SINAIS VITAIS:*\n"
    ++ (match v.bp_systolic, v.bp_diastolic with
        | some sys, some dia => "• PA: " ++ sys ++ "/" ++ dia ++ " mmHg\n"
        | _, _ => "")
    ++ (match v.hr with
        | some h => "• FC: " ++ h ++ " bpm\n"
        | none => "")
    ++ (match v.temp_c with
        | some t => "• Temperatura: " ++ t ++ "°C\n"
        | none => "")
    ++ (match v.spo2 with
        | some o2 => "• SpO2: " ++ o2 ++ "%\n"
        | none => "")
    ++ "\n"

/-- Optional bullet-list section (`if (xs && xs.length > 0)` pattern of
`whatsapp_monitor.js:235`, `254`, `262`, `270`). -/
def optListSection (title : String) : Option (List String) → String
  | none => ""
  | some items =>
    if items.length > 0 then title ++ bulletLines items ++ "\n" else ""

/-- Administered-medications section (`whatsapp_monitor.js:243-252`);
unlike the plain list sections it appends no extra trailing newline —
each entry already ends in a blank line. -/
def medsSection : Option (List MedAdministered) → String
  | none => ""
  | some meds =>
    if meds.length > 0 then
      "💉 *MEDICAMENTOS ADMINISTRADOS:*\n" ++ String.join (meds.map medEntry)
    else ""

/-- `formatReportForWhatsApp` (`whatsapp_monitor.js:211-288`): the pure
report formatter.  Sections appear in the source's fixed order and an
absent field contributes the empty string. -/
def formatReportForWhatsApp (r : ReportData) : String :=
  "📋 *RELATÓRIO DE VISITA DOMICILIAR*\n\n"
  ++ (match r.patient_state with
      | some ps => "👤 *Estado do Paciente:* " ++ ps ++ "\n\n"
      | none => "")
  ++ vitalsSection r.vitals
  ++ optListSection "💊 *MEDICAMENTOS EM USO:*\n" r.medications_in_use
  ++ medsSection r.medications_administered
  ++ optListSection "🧰 *MATERIAIS UTILIZADOS:*\n" r.materials_used
  ++ optListSection "🔧 *INTERVENÇÕES REALIZADAS:*\n" r.interventions
  ++ optListSection "📝 *RECOMENDAÇÕES:*\n" r.recommendations
  ++ (match r.observations with
      | some o => "💭 *OBSERVAÇÕES:*\n" ++ o ++ "\n\n"
      | none => "")
  ++ (match r.data_processamento with
      | some dp => "⏰ *Processado em:* " ++ ptBRDateString dp
      | none => "")

/-- Result mapping of `sendDocumentsToAPI` (`whatsapp_monitor.js:188-208`):
an application success yields `{success: true, data}`, an application
failure yields `{success: false, error: response.data.erro}`, and a
thrown transport error is caught and yields
`{success: false, error: error.message}`. -/
def sendDocumentsToAPI : ApiResponse → SendResult
  | ApiResponse.appSuccess d => { success := true, data := some d, error := none }
  | ApiResponse.appFailure e => { success := false, data := none, error := some e }
  | ApiResponse.transportError m => { success := false, data := none, error := some m }

/-- Replies produced from the hand-off result
(`whatsapp_monitor.js:571-595`): on `apiResult.success && apiResult.data`
the formatted report and the completion notice are sent; otherwise the
failure template carrying `apiResult.error` is sent. -/
def apiResultOuts (r : SendResult) : List Output :=
  match r.success, r.data with
  | true, some d =>
    [Output.reply (formatReportForWhatsApp d), Output.reply completionMsg]
  | _, _ => [Output.reply (apiErrorText (r.error.getD "undefined"))]

/-- Stored name of the raw audio payload
(`whatsapp_monitor.js:340`). -/
def audioRawName (e : Event) : String :=
  "audio_" ++ toString e.timestamp ++ "_" ++ e.msgId ++ "." ++ e.mimeExt

/-- Stored name of the transcoded WAV copy
(`whatsapp_monitor.js:351`). -/
def audioWavName (e : Event) : String :=
  "audio_" ++ toString e.timestamp ++ "_" ++ e.msgId ++ ".wav"

/-- The `message.type` string used in stored media filenames
(`whatsapp_monitor.js:373`). -/
def mediaTypeName : MsgType → String
  | MsgType.chat => "chat"
  | MsgType.ptt => "ptt"
  | MsgType.audio => "audio"
  | MsgType.image => "image"
  | MsgType.document => "document"

/-- Stored name of a non-audio media payload
(`whatsapp_monitor.js:373`). -/
def mediaFileName (e : Event) : String :=
  mediaTypeName e.mtype ++ "_" ++ toString e.timestamp ++ "_" ++ e.msgId
    ++ "." ++ e.mimeExt

/-- File references saved by `handleMediaMessage`
(`whatsapp_monitor.js:332-391`) for one event.  Voice notes
(`ptt`/`audio`) save the raw payload and, when FFmpeg is available and
the conversion succeeds, additionally the WAV copy; a failed or
unavailable transcode leaves only the raw reference
(`convertAudioToWav` resolves `false` on error,
`whatsapp_monitor.js:130-143`, so the failure never escapes).  Other
media save one file when `message.hasMedia` and the download yields a
mimetyped payload.  A failed download saves nothing. -/
def mediaSavedFiles (e : Event) : List String :=
  if e.mtype = MsgType.ptt ∨ e.mtype = MsgType.audio then
    if e.mediaOk then
      if e.ffmpegAvailable ∧ e.convertOk then [audioRawName e, audioWavName e]
      else [audioRawName e]
    else []
  else if e.hasMedia then
    if e.mediaOk then [mediaFileName e] else []
  else []

/-- `handleMediaMessage` with `isVisitDocument = true`
(`whatsapp_monitor.js:332-391`): the saved file references are appended
to the session's `visitDocuments` accumulator and also returned.  (The
`isVisitDocument = false` variant used by the general message logger
does not touch the session and is outside the session model.) -/
def handleMediaMessage (s : Session) (e : Event) : Session × List String :=
  ({ s with visitDocuments := s.visitDocuments ++ mediaSavedFiles e },
   mediaSavedFiles e)

/-- The trimmed text of an event
(`message.body ? message.body.trim() : ''`,
`whatsapp_monitor.js:423`). -/
def userMsg (e : Event) : String := jsTrim e.body

/-- One step of `handleBotConversation` (`whatsapp_monitor.js:420-623`),
the conversation state machine: given the process-global API key, the
current session and one inbound event, it returns the updated session
and the ordered observable outputs (replies sent and hand-off requests
issued).  The branch structure mirrors the source in order: the three
empty-text guards, the new-user greeting, PIN verification, the
authenticated menu (option 1, option 2, re-authentication, invalid
option), and collection mode (finalize keyword, then text-note
capture). -/
def step (key : String) (s : Session) (e : Event) : Session × List Output :=
  if userMsg e = "" ∧ e.mtype = MsgType.chat then
    (s, [])
  else if userMsg e = "" ∧ e.mtype ≠ MsgType.chat
      ∧ s.state = some SState.documenting_visit then
    if (mediaSavedFiles e).length > 0 then
      ((handleMediaMessage s e).1, [Output.reply docReceivedMsg])
    else
      ((handleMediaMessage s e).1, [])
  else if userMsg e = "" then
    (s, [])
  else if s.state = none then
    ({ s with state := some SState.waiting_pin }, [Output.reply greetingMsg])
  else if s.state = some SState.waiting_pin then
    if isValidPin (userMsg e) then
      ({ s with pin := some (userMsg e), state := some SState.authenticated },
       [Output.reply menuMsg])
    else
      (s, [Output.reply pinInvalidMsg])
  else if s.state = some SState.authenticated then
    if userMsg e = "1" then
      (s, [Output.reply scheduleMsg])
    else if userMsg e = "2" then
      ({ s with state := some SState.documenting_visit,
                visitDocuments := [], visitTexts := [] },
       [Output.reply docModeMsg])
    else if isValidPin (userMsg e) then
      ({ s with pin := some (userMsg e), state := some SState.authenticated,
                visitDocuments := [], visitTexts := [] },
       [Output.reply menuMsg])
    else
      (s, [Output.reply invalidOptionMsg])
  else if s.state = some SState.documenting_visit then
    if lowerStr (userMsg e) = "0" ∨ lowerStr (userMsg e) = "sair" then
      ({ s with state := none, visitDocuments := [], visitTexts := [] },
       Output.reply processingMsg
         :: Output.handoff { api_key := key, texts := s.visitTexts,
                             files := s.visitDocuments }
         :: apiResultOuts (sendDocumentsToAPI e.api))
    else
      if e.mtype = MsgType.chat then
        ({ s with visitTexts := s.visitTexts ++ [userMsg e] },
         [Output.reply textReceivedMsg])
      else
        (s, [])
  else
    (s, [])

/-- The session created on first contact (`getUserSession`,
`whatsapp_monitor.js:66-73`). -/
def initSession : Session :=
  { state := none, pin := none, visitDocuments := [], visitTexts := [] }

/-- Processing of a sequence of inbound events for one user identity, in
arrival order, collecting all outputs. -/
def runSteps (key : String) (s : Session) : List Event → Session × List Output
  | [] => (s, [])
  | e :: es =>
    ((runSteps key (step key s e).1 es).1,
     (step key s e).2 ++ (runSteps key (step key s e).1 es).2)

/-- Two sessions that agree on everything except the stored `pin`
field. -/
def pinEquiv (s₁ s₂ : Session) : Prop :=
  s₁.state = s₂.state ∧ s₁.visitDocuments = s₂.visitDocuments
    ∧ s₁.visitTexts = s₂.visitTexts

/-- The event equal to `e` except for its text body. -/
def setBody (e : Event) (b : String) : Event := { e with body := b }

/-- The event equal to `e` except for the extraction collaborator's
behaviour. -/
def setApi (e : Event) (a : ApiResponse) : Event := { e with api := a }

/-- Two event sequences aimed at the same user that differ only in which
valid 6-digit PIN is submitted at points where the session accepts a
PIN (state AWAITING_PIN, or AUTHENTICATED via re-authentication).  The
relation threads the session of the first run; elsewhere the sequences
are identical. -/
inductive PinVar (key : String) : Session → List Event → List Event → Prop
  | nil (s : Session) : PinVar key s [] []
  | same (s : Session) (e : Event) (t₁ t₂ : List Event) :
      PinVar key (step key s e).1 t₁ t₂ →
      PinVar key s (e :: t₁) (e :: t₂)
  | pinSwap (s : Session) (e : Event) (b₁ b₂ : String) (t₁ t₂ : List Event) :
      (s.state = some SState.waiting_pin ∨ s.state = some SState.authenticated) →
      isValidPin (jsTrim b₁) = true →
      isValidPin (jsTrim b₂) = true →
      PinVar key (step key s (setBody e b₁)).1 t₁ t₂ →
      PinVar key s (setBody e b₁ :: t₁) (setBody e b₂ :: t₂)

/-- The accumulator invariant: the artifact and note accumulators are
non-empty only in collection mode. -/
def accInv (s : Session) : Prop :=
  (s.visitDocuments ≠ [] ∨ s.visitTexts ≠ []) →
    s.state = some SState.documenting_visit

/-- A plain text event with fixed bookkeeping fields, used for concrete
evaluations. -/
def mkTextEvent (b : String) : Event :=
  { mtype := MsgType.chat, body := b, msgId := "m1", timestamp := 1000,
    hasMedia := false, mediaOk := false, mimeExt := "txt",
    ffmpegAvailable := false, convertOk := false,
    api := ApiResponse.appFailure "falha" }

/-- A caption-free voice-note event whose download succeeds and whose
transcoding collaborator is unavailable. -/
def mkAudioEvent : Event :=
  { mtype := MsgType.audio, body := "", msgId := "a1", timestamp := 5,
    hasMedia := true, mediaOk := true, mimeExt := "ogg",
    ffmpegAvailable := false, convertOk := false,
    api := ApiResponse.appFailure "falha" }

/-- An image event carrying a non-empty text caption whose download
would succeed. -/
def mkCaptionedImageEvent : Event :=
  { mtype := MsgType.image, body := "foto do curativo", msgId := "i1",
    timestamp := 7, hasMedia := true, mediaOk := true, mimeExt := "jpeg",
    ffmpegAvailable := false, convertOk := false,
    api := ApiResponse.appFailure "falha" }

/-- A session in collection mode with empty accumulators. -/
def collSession : Session :=
  { state := some SState.documenting_visit, pin := some "111111",
    visitDocuments := [], visitTexts := [] }

/-- A session in collection mode holding one artifact and one note. -/
def collSessionFull : Session :=
  { state := some SState.documenting_visit, pin := some "111111",
    visitDocuments := ["audio_1_a.ogg"], visitTexts := ["nota"] }

/-- An authenticated session. -/
def authSession : Session :=
  { state := some SState.authenticated, pin := some "111111",
    visitDocuments := [], visitTexts := [] }

/-- A session awaiting its PIN. -/
def pinSession : Session :=
  { state := some SState.waiting_pin, pin := none,
    visitDocuments := [], visitTexts := [] }

end Transcriptor

namespace Transcriptor

/-- A report whose only content is an administered-medications list. -/
def onlyMeds (meds : List MedAdministered) : ReportData :=
  { patient_state := none, vitals := none, medications_in_use := none,
    medications_administered := some meds, materials_used := none,
    interventions := none, recommendations := none, observations := none,
    data_processamento := none }

/-- A report whose only content is the heart-rate vital sign. -/
def onlyHr (h : String) : ReportData :=
  { patient_state := none,
    vitals := some { bp_systolic := none, bp_diastolic := none,
                     hr := some h, temp_c := none, spo2 := none },
    medications_in_use := none, medications_administered := none,
    materials_used := none, interventions := none, recommendations := none,
    observations := none, data_processamento := none }

/-- A valid PIN is non-empty and distinct from the menu options, so it
falls through the empty-text guards and the menu branches. -/
theorem validPin_ne (t : String) (h : isValidPin t = true) :
    t ≠ "" ∧ t ≠ "1" ∧ t ≠ "2" := by
  refine ⟨?_, ?_, ?_⟩ <;> rintro rfl <;> exact absurd h (by decide)

/-- Preservation of the accumulator invariant by one step of the
conversation state machine. -/
theorem accInv_step (key : String) (s : Session) (e : Event)
    (h : accInv s) : accInv (step key s e).1 := by
  unfold accInv at h ⊢
  unfold step
  split_ifs <;> simp_all [handleMediaMessage]

/-- Preservation of the accumulator invariant along any event
sequence. -/
theorem accInv_runSteps (key : String) (s : Session) (evs : List Event)
    (h : accInv s) : accInv (runSteps key s evs).1 := by
  induction evs generalizing s with
  | nil => exact h
  | cons e es ih => exact ih _ (accInv_step key s e h)

theorem pinEquiv_refl (s : Session) : pinEquiv s s := ⟨rfl, rfl, rfl⟩

theorem pinEquiv_symm (s₁ s₂ : Session) (h : pinEquiv s₁ s₂) :
    pinEquiv s₂ s₁ := ⟨h.1.symm, h.2.1.symm, h.2.2.symm⟩

theorem pinEquiv_trans (s₁ s₂ s₃ : Session)
    (h₁ : pinEquiv s₁ s₂) (h₂ : pinEquiv s₂ s₃) : pinEquiv s₁ s₃ :=
  ⟨h₁.1.trans h₂.1, h₁.2.1.trans h₂.2.1, h₁.2.2.trans h₂.2.2⟩

/-- Two pin-equivalent sessions differ only by an overwrite of the pin
field. -/
theorem pinEquiv_iff (s₁ s₂ : Session) (h : pinEquiv s₁ s₂) :
    s₂ = { s₁ with pin := s₂.pin } := by
  obtain ⟨a, b, c, d⟩ := s₁
  obtain ⟨a', b', c', d'⟩ := s₂
  obtain ⟨h1, h2, h3⟩ := h
  simp only at h1 h2 h3
  simp [h1, h2, h3]

/-- The stored pin is never read by the state machine: overwriting it
changes neither the outputs of a step nor anything but the pin of the
resulting session. -/
theorem step_pin_write (key : String) (s : Session) (q : Option String)
    (e : Event) :
    (step key { s with pin := q } e).2 = (step key s e).2 ∧
    pinEquiv (step key { s with pin := q } e).1 (step key s e).1 := by
  obtain ⟨st, p, d, t⟩ := s
  rcases st with _ | st
  · by_cases h1 : userMsg e = ""
    · by_cases h2 : e.mtype = MsgType.chat <;> simp [step, pinEquiv, h1, h2]
    · simp [step, pinEquiv, h1]
  · cases st
    · by_cases h1 : userMsg e = ""
      · by_cases h2 : e.mtype = MsgType.chat <;> simp [step, pinEquiv, h1, h2]
      · by_cases hp : isValidPin (userMsg e) = true <;>
          simp [step, pinEquiv, h1, hp]
    · by_cases h1 : userMsg e = ""
      · by_cases h2 : e.mtype = MsgType.chat <;> simp [step, pinEquiv, h1, h2]
      · by_cases m1 : userMsg e = "1"
        · simp [step, pinEquiv, h1, m1]
        · by_cases m2 : userMsg e = "2"
          · simp [step, pinEquiv, h1, m1, m2]
          · by_cases hp : isValidPin (userMsg e) = true <;>
              simp [step, pinEquiv, h1, m1, m2, hp]
    · by_cases h1 : userMsg e = ""
      · by_cases h2 : e.mtype = MsgType.chat
        · simp [step, pinEquiv, h1, h2]
        · by_cases hl : (mediaSavedFiles e).length > 0 <;>
            simp [step, pinEquiv, handleMediaMessage, h1, h2, hl]
      · by_cases hf : lowerStr (userMsg e) = "0" ∨ lowerStr (userMsg e) = "sair"
        · simp [step, pinEquiv, h1, hf]
        · by_cases h2 : e.mtype = MsgType.chat <;>
            simp [step, pinEquiv, h1, hf, h2]

/-- Stepping two pin-equivalent sessions on the same event yields the
same outputs and pin-equivalent sessions. -/
theorem step_pinEquiv (key : String) (s₁ s₂ : Session) (e : Event)
    (h : pinEquiv s₁ s₂) :
    (step key s₁ e).2 = (step key s₂ e).2 ∧
    pinEquiv (step key s₁ e).1 (step key s₂ e).1 := by
  rw [pinEquiv_iff s₁ s₂ h]
  exact ⟨(step_pin_write key s₁ s₂.pin e).1.symm,
    pinEquiv_symm _ _ (step_pin_write key s₁ s₂.pin e).2⟩

/-- At a PIN-accepting state, stepping on two different valid PINs
yields the same outputs and pin-equivalent sessions. -/
theorem step_pinSwap (key : String) (s : Session) (e : Event) (b₁ b₂ : String)
    (hst : s.state = some SState.waiting_pin
        ∨ s.state = some SState.authenticated)
    (h₁ : isValidPin (jsTrim b₁) = true)
    (h₂ : isValidPin (jsTrim b₂) = true) :
    (step key s (setBody e b₁)).2 = (step key s (setBody e b₂)).2 ∧
    pinEquiv (step key s (setBody e b₁)).1 (step key s (setBody e b₂)).1 := by
  obtain ⟨n10, n11, n12⟩ := validPin_ne _ h₁
  obtain ⟨n20, n21, n22⟩ := validPin_ne _ h₂
  rcases hst with hs | hs <;>
    simp [step, hs, userMsg, setBody, h₁, h₂, n10, n11, n12, n20, n21, n22,
      pinEquiv]

/-- The hand-off result replies contain no hand-off request. -/
theorem handoff_notin_apiResultOuts (r : SendResult) (p : HandoffPayload) :
    Output.handoff p ∉ apiResultOuts r := by
  obtain ⟨su, da, er⟩ := r
  rcases su <;> rcases da <;> simp [apiResultOuts]

/-- Every hand-off request emitted by a step carries the process-global
API key. -/
theorem step_handoff_key (key : String) (s : Session) (e : Event)
    (p : HandoffPayload) (h : Output.handoff p ∈ (step key s e).2) :
    p.api_key = key := by
  unfold step at h
  split_ifs at h <;> simp at h
  rcases h with h | h
  · rw [h]
  · exact absurd h (handoff_notin_apiResultOuts _ _)

/-- Every hand-off request emitted along an event sequence carries the
process-global API key. -/
theorem runSteps_handoff_key (key : String) (s : Session) (evs : List Event)
    (p : HandoffPayload)
    (h : Output.handoff p ∈ (runSteps key s evs).2) : p.api_key = key := by
  induction evs generalizing s with
  | nil => simp [runSteps] at h
  | cons e es ih =>
    rw [runSteps, List.mem_append] at h
    rcases h with h | h
    · exact step_handoff_key key s e p h
    · exact ih _ h

/-- Pin-variant event sequences produce identical output traces from
pin-equivalent sessions. -/
theorem runSteps_pinVar_out (key : String) (s₁ : Session)
    (evs₁ evs₂ : List Event) (hvar : PinVar key s₁ evs₁ evs₂)
    (s₂ : Session) (heq : pinEquiv s₁ s₂) :
    (runSteps key s₁ evs₁).2 = (runSteps key s₂ evs₂).2 := by
  induction hvar generalizing s₂ with
  | nil s => rfl
  | same s e t₁ t₂ hv ih =>
    simp only [runSteps]
    have hstep := step_pinEquiv key s s₂ e heq
    rw [hstep.1, ih _ hstep.2]
  | pinSwap s e b₁ b₂ t₁ t₂ hst h₁ h₂ hv ih =>
    simp only [runSteps]
    have hswap := step_pinSwap key s e b₁ b₂ hst h₁ h₂
    have hstep := step_pinEquiv key s s₂ (setBody e b₂) heq
    rw [hswap.1, hstep.1, ih _ (pinEquiv_trans _ _ _ hswap.2 hstep.2)]

/-- A caption-free media event with a usable payload always yields at
least one saved file reference. -/
theorem mediaSavedFiles_ne (e : Event) (hok : e.mediaOk = true)
    (hkind : e.mtype = MsgType.ptt ∨ e.mtype = MsgType.audio
        ∨ e.hasMedia = true) :
    mediaSavedFiles e ≠ [] := by
  by_cases hpa : e.mtype = MsgType.ptt ∨ e.mtype = MsgType.audio
  · simp only [mediaSavedFiles, hpa, if_true, hok]
    split_ifs <;> simp
  · have hhm : e.hasMedia = true := by
      rcases hkind with h | h | h
      · exact absurd (Or.inl h) hpa
      · exact absurd (Or.inr h) hpa
      · exact h
    simp [mediaSavedFiles, hpa, hhm, hok]

end Transcriptor

namespace Transcriptor

/-- Claim C1 (corrected), counterexample: in state COLLECTING a valid
6-digit PIN is not treated as re-authentication — the text is captured
as a note, the note accumulator becomes non-empty, the
note-acknowledgment (not the menu) is sent, and the state remains
COLLECTING. -/
theorem claim_C1_counterexample :
    (step "chave" collSession (mkTextEvent "123456")).1.state
        = some SState.documenting_visit
    ∧ (step "chave" collSession (mkTextEvent "123456")).1.visitTexts
        = ["123456"]
    ∧ (step "chave" collSession (mkTextEvent "123456")).2
        = [Output.reply textReceivedMsg] := by
  decide

/-- Claim C1 (amended): for every session in state AUTHENTICATED, an
inbound event whose trimmed body is a valid 6-digit PIN is treated as
re-authentication — both accumulators are cleared, the standard menu
reply is sent, and the session ends in state AUTHENTICATED with the new
PIN stored.  (In state COLLECTING such a text is captured as a note
instead; see the counterexample.) -/
theorem claim_C1_reauth (key : String) (s : Session) (e : Event)
    (hs : s.state = some SState.authenticated)
    (hp : isValidPin (userMsg e) = true) :
    step key s e
      = ({ s with pin := some (userMsg e), state := some SState.authenticated,
                  visitDocuments := [], visitTexts := [] },
         [Output.reply menuMsg]) := by
  obtain ⟨h0, h1, h2⟩ := validPin_ne _ hp
  simp [step, hs, h0, h1, h2, hp]

/-- Witness for C1: re-sending the PIN 654321 to an authenticated
session clears the accumulators and replies with the menu. -/
theorem claim_C1_reauth_witness :
    step "chave" authSession (mkTextEvent "654321")
      = ({ authSession with pin := some "654321",
                            state := some SState.authenticated,
                            visitDocuments := [], visitTexts := [] },
         [Output.reply menuMsg]) :=
  claim_C1_reauth "chave" authSession (mkTextEvent "654321") rfl (by decide)

/-- Claim C2 (corrected), counterexample: finalizing a collecting
session does not leave it in state AUTHENTICATED — the session state is
reset to the initial null (unauthenticated) state. -/
theorem claim_C2_counterexample :
    (step "chave" collSessionFull (mkTextEvent "0")).1.state
        ≠ some SState.authenticated
    ∧ (step "chave" collSessionFull (mkTextEvent "0")).1.state = none := by
  decide

/-- Claim C2 (amended): for every session in state COLLECTING,
processing the finalize keyword leaves the session in the initial
unauthenticated state (state reset to null, so the next contact
re-prompts for a PIN) with empty artifacts and notes accumulators,
regardless of whether the hand-off succeeds, fails at the application
level, or fails at the transport level (the event's extraction-service
behaviour is universally quantified). -/
theorem claim_C2_finalize_resets (key : String) (s : Session) (e : Event)
    (hs : s.state = some SState.documenting_visit)
    (hf : lowerStr (userMsg e) = "0" ∨ lowerStr (userMsg e) = "sair") :
    (step key s e).1
      = { s with state := none, visitDocuments := [], visitTexts := [] } := by
  have hne : userMsg e ≠ "" := by
    rintro h
    rw [h] at hf
    exact absurd hf (by decide)
  simp [step, hs, hne, hf]

/-- Witness for C2: finalizing a collecting session holding one
artifact and one note under an application failure clears everything
and resets the state to null. -/
theorem claim_C2_finalize_resets_witness :
    (step "chave" collSessionFull (mkTextEvent "0")).1
      = { collSessionFull with state := none, visitDocuments := [],
                               visitTexts := [] } :=
  claim_C2_finalize_resets "chave" collSessionFull (mkTextEvent "0") rfl
    (by decide)

/-- Claim C3 (corrected), counterexample: in state COLLECTING the text
"exit" does not trigger the hand-off pipeline — it is captured as a
note and only the note acknowledgment is sent. -/
theorem claim_C3_counterexample :
    (step "chave" collSession (mkTextEvent "exit")).2
        = [Output.reply textReceivedMsg]
    ∧ (step "chave" collSession (mkTextEvent "exit")).1.visitTexts
        = ["exit"] := by
  decide

/-- Claim C3 (amended): for every session in state COLLECTING, a text
event triggers the hand-off pipeline if and only if its trimmed body
case-insensitively matches the token 0 or the localized exit token
(which is only the Portuguese word sair — the English word exit is
captured as a note).  When it triggers, the hand-off request carries
exactly the previously accumulated notes and artifacts (the keyword is
never captured), and no other text event emits a hand-off. -/
theorem claim_C3_finalize_keyword (key : String) (s : Session) (e : Event)
    (hs : s.state = some SState.documenting_visit)
    (hc : e.mtype = MsgType.chat)
    (hne : userMsg e ≠ "") :
    ((lowerStr (userMsg e) = "0" ∨ lowerStr (userMsg e) = "sair") →
      step key s e
        = ({ s with state := none, visitDocuments := [], visitTexts := [] },
           Output.reply processingMsg
             :: Output.handoff { api_key := key, texts := s.visitTexts,
                                 files := s.visitDocuments }
             :: apiResultOuts (sendDocumentsToAPI e.api))) ∧
    (¬(lowerStr (userMsg e) = "0" ∨ lowerStr (userMsg e) = "sair") →
      step key s e
        = ({ s with visitTexts := s.visitTexts ++ [userMsg e] },
           [Output.reply textReceivedMsg])) := by
  constructor <;> intro hf <;> simp [step, hs, hc, hne, hf]

/-- Witness for C3: the message SAIR finalizes a collecting session
(emitting the hand-off request with the accumulated evidence), applied
at a concrete collecting session. -/
theorem claim_C3_finalize_keyword_witness :
    step "chave" collSessionFull (mkTextEvent "SAIR")
      = ({ collSessionFull with state := none, visitDocuments := [],
                                visitTexts := [] },
         Output.reply processingMsg
           :: Output.handoff { api_key := "chave", texts := ["nota"],
                               files := ["audio_1_a.ogg"] }
           :: apiResultOuts
                (sendDocumentsToAPI (mkTextEvent "SAIR").api)) :=
  (claim_C3_finalize_keyword "chave" collSessionFull (mkTextEvent "SAIR")
    rfl rfl (by decide)).1 (by decide)

/-- Claim C4 (corrected), counterexample: an image event carrying a
non-empty text caption arriving while COLLECTING is ignored by the
conversation logic — no artifact reference is appended, no
acknowledgment is sent, and the session is returned unchanged
(the payload is saved only by the general message logger, outside the
session). -/
theorem claim_C4_counterexample :
    step "chave" collSession mkCaptionedImageEvent = (collSession, []) := by
  decide

/-- Claim C4 (amended): for every media-bearing event (voice note, or
other media with a payload) with an empty text caption whose download
succeeds, arriving while the session is COLLECTING: the payload is
persisted (at least one file reference is produced), the references are
appended to the session's artifacts, the received acknowledgment is
sent, and the state remains COLLECTING.  A media event carrying a
non-empty caption is not captured (see the counterexample). -/
theorem claim_C4_media_capture (key : String) (s : Session) (e : Event)
    (hs : s.state = some SState.documenting_visit)
    (hb : userMsg e = "")
    (hm : e.mtype ≠ MsgType.chat)
    (hok : e.mediaOk = true)
    (hkind : e.mtype = MsgType.ptt ∨ e.mtype = MsgType.audio
        ∨ e.hasMedia = true) :
    mediaSavedFiles e ≠ [] ∧
    step key s e
      = ({ s with visitDocuments := s.visitDocuments ++ mediaSavedFiles e },
         [Output.reply docReceivedMsg]) := by
  have hsaved := mediaSavedFiles_ne e hok hkind
  refine ⟨hsaved, ?_⟩
  simp [step, hs, hb, hm, handleMediaMessage, List.length_pos, hsaved]

/-- Witness for C4: a caption-free voice note in COLLECTING is appended
to the artifacts and acknowledged. -/
theorem claim_C4_media_capture_witness :
    mediaSavedFiles mkAudioEvent ≠ [] ∧
    step "chave" collSession mkAudioEvent
      = ({ collSession with
             visitDocuments :=
               collSession.visitDocuments ++ mediaSavedFiles mkAudioEvent },
         [Output.reply docReceivedMsg]) :=
  claim_C4_media_capture "chave" collSession mkAudioEvent rfl (by decide)
    (by decide) rfl (Or.inr (Or.inl rfl))

/-- Claim C5 (confirmed): over all event sequences directed at a single
identity from the initial session, the artifacts and notes accumulators
are non-empty only while the state is COLLECTING; and on every step
that leaves COLLECTING both accumulators are cleared together. -/
theorem claim_C5_accumulator_invariant (key : String) :
    (∀ evs : List Event,
      ((runSteps key initSession evs).1.visitDocuments ≠ []
          ∨ (runSteps key initSession evs).1.visitTexts ≠ []) →
      (runSteps key initSession evs).1.state
        = some SState.documenting_visit) ∧
    (∀ (s : Session) (e : Event),
      s.state = some SState.documenting_visit →
      (step key s e).1.state ≠ some SState.documenting_visit →
      (step key s e).1.visitDocuments = [] ∧
        (step key s e).1.visitTexts = []) := by
  constructor
  · intro evs
    exact accInv_runSteps key initSession evs
      (by intro h; simp [initSession] at h)
  · intro s e hs hleave
    unfold step at hleave ⊢
    split_ifs at hleave ⊢ <;> simp_all [handleMediaMessage]

/-- Witness for C5: after greeting, authentication, entering collection
mode and sending one note, the accumulators are non-empty and the state
is indeed COLLECTING; and finalizing a loaded collecting session clears
both accumulators. -/
theorem claim_C5_accumulator_invariant_witness :
    (runSteps "chave" initSession
        [mkTextEvent "oi", mkTextEvent "123456", mkTextEvent "2",
         mkTextEvent "nota da visita"]).1.state
      = some SState.documenting_visit
    ∧ ((step "chave" collSessionFull (mkTextEvent "0")).1.visitDocuments = []
        ∧ (step "chave" collSessionFull (mkTextEvent "0")).1.visitTexts
            = []) :=
  ⟨(claim_C5_accumulator_invariant "chave").1
      [mkTextEvent "oi", mkTextEvent "123456", mkTextEvent "2",
       mkTextEvent "nota da visita"] (by decide),
   (claim_C5_accumulator_invariant "chave").2 collSessionFull
      (mkTextEvent "0") rfl (by decide)⟩

/-- Claim C6 (corrected), counterexample: an application-level failure
and a transport-level failure carrying the same message string produce
the identical result record from the hand-off, and the identical
session and outputs (hence the identical user-facing failure message)
from a finalize step — the two are not distinct. -/
theorem claim_C6_counterexample :
    sendDocumentsToAPI (ApiResponse.appFailure "timeout of 60000ms exceeded")
        = sendDocumentsToAPI
            (ApiResponse.transportError "timeout of 60000ms exceeded")
    ∧ step "chave" collSessionFull
          (setApi (mkTextEvent "0")
            (ApiResponse.appFailure "timeout of 60000ms exceeded"))
        = step "chave" collSessionFull
            (setApi (mkTextEvent "0")
              (ApiResponse.transportError "timeout of 60000ms exceeded")) :=
  ⟨rfl, rfl⟩

/-- Claim C6 (amended): transport-level failures of the extraction
collaborator are mapped to the same untyped result record
(success flag false plus the bare message string) as application-level
failures, and a finalize step behaves identically under either failure
kind with the same message — the code does not distinguish the two, in
the returned record or in the failure message surfaced to the user. -/
theorem claim_C6_error_uniform (key : String) (s : Session) (e : Event)
    (m : String) :
    sendDocumentsToAPI (ApiResponse.appFailure m)
        = sendDocumentsToAPI (ApiResponse.transportError m)
    ∧ step key s (setApi e (ApiResponse.appFailure m))
        = step key s (setApi e (ApiResponse.transportError m)) :=
  ⟨rfl, rfl⟩

/-- Claim C7 (confirmed): for every caption-free audio event captured
during COLLECTING whose download succeeds, if the transcoding
collaborator is unavailable or the conversion fails, artifact capture
still succeeds — exactly one artifact reference (the raw payload) is
appended, the acknowledgment is still sent, and the state remains
COLLECTING; the transcoding failure is absorbed (the embedded
`convertAudioToWav` resolves false rather than raising). -/
theorem claim_C7_transcode_failure_safe (key : String) (s : Session)
    (e : Event)
    (hs : s.state = some SState.documenting_visit)
    (hb : userMsg e = "")
    (ht : e.mtype = MsgType.ptt ∨ e.mtype = MsgType.audio)
    (hok : e.mediaOk = true)
    (hfail : e.ffmpegAvailable = false ∨ e.convertOk = false) :
    mediaSavedFiles e = [audioRawName e] ∧
    step key s e
      = ({ s with visitDocuments := s.visitDocuments ++ [audioRawName e] },
         [Output.reply docReceivedMsg]) := by
  have hm : e.mtype ≠ MsgType.chat := by
    rcases ht with h | h <;> simp [h]
  have hsf : mediaSavedFiles e = [audioRawName e] := by
    rcases hfail with h | h <;> simp [mediaSavedFiles, ht, hok, h]
  refine ⟨hsf, ?_⟩
  simp [step, hs, hb, hm, handleMediaMessage, hsf]

/-- Witness for C7: a voice note captured while FFmpeg is absent yields
exactly the raw artifact reference and the acknowledgment. -/
theorem claim_C7_transcode_failure_safe_witness :
    mediaSavedFiles mkAudioEvent = [audioRawName mkAudioEvent] ∧
    step "chave" collSession mkAudioEvent
      = ({ collSession with
             visitDocuments :=
               collSession.visitDocuments ++ [audioRawName mkAudioEvent] },
         [Output.reply docReceivedMsg]) :=
  claim_C7_transcode_failure_safe "chave" collSession mkAudioEvent rfl
    (by decide) (Or.inr rfl) rfl (Or.inl rfl)

/-- Claim C8 (corrected), counterexample: in state AWAITING_PIN the
submitted string with surrounding whitespace is accepted — the body is
trimmed before validation, so the session becomes AUTHENTICATED with
the trimmed PIN stored and the menu sent. -/
theorem claim_C8_counterexample :
    (step "chave" pinSession (mkTextEvent " 123456 ")).1.state
        = some SState.authenticated
    ∧ (step "chave" pinSession (mkTextEvent " 123456 ")).1.pin
        = some "123456"
    ∧ (step "chave" pinSession (mkTextEvent " 123456 ")).2
        = [Output.reply menuMsg] := by
  decide

/-- Claim C8 (amended): in state AWAITING_PIN the message body is first
trimmed of surrounding whitespace; the resulting non-empty string is
accepted if and only if it is exactly six ASCII digits — acceptance
stores the trimmed PIN, moves to AUTHENTICATED and sends the menu,
while every other trimmed string (too short, too long, containing
non-digits) is rejected with the invalid-PIN prompt and the session is
left unchanged in AWAITING_PIN.  (A body that trims to the empty string
is silently ignored by the empty-text guard.) -/
theorem claim_C8_pin_validation (key : String) (s : Session) (e : Event)
    (hs : s.state = some SState.waiting_pin)
    (hne : userMsg e ≠ "") :
    (isValidPin (userMsg e) = true →
      step key s e
        = ({ s with pin := some (userMsg e),
                    state := some SState.authenticated },
           [Output.reply menuMsg])) ∧
    (isValidPin (userMsg e) = false →
      step key s e = (s, [Output.reply pinInvalidMsg])) := by
  constructor <;> intro hp <;> simp [step, hs, hne, hp]

/-- Witness for C8: the malformed credential 12a456 is rejected with
the invalid-PIN prompt and the session is unchanged. -/
theorem claim_C8_pin_validation_witness :
    step "chave" pinSession (mkTextEvent "12a456")
      = (pinSession, [Output.reply pinInvalidMsg]) :=
  (claim_C8_pin_validation "chave" pinSession (mkTextEvent "12a456") rfl
    (by decide)).2 (by decide)

/-- Claim C9 (corrected), counterexample: for an administered
medication whose name is present but whose dose, route and time are all
missing, the formatted report contains no neutral placeholder for the
missing sub-fields — the sub-lines are omitted entirely.  (It is the
missing name that falls back to the placeholder, not the
sub-fields.) -/
theorem claim_C9_counterexample :
    formatReportForWhatsApp
        (onlyMeds [{ name := some "Dipirona", dose := none, route := none,
                     time := none }])
      = "📋 *RELATÓRIO DE VISITA DOMICILIAR*\n\n💉 *MEDICAMENTOS ADMINISTRADOS:*\n• *Dipirona*\n\n" := by
  decide

/-- Claim C9 (amended): the formatter omits each absent optional
section entirely; a result with only the heart rate set yields exactly
the header plus the vital-signs block containing the heart-rate line
and nothing else; and for administered medications it is the name that
falls back to the neutral placeholder when missing, while the
dose/route/time sub-lines are individually omitted (not replaced by a
placeholder) when absent. -/
theorem claim_C9_formatter (n d : String) :
    formatReportForWhatsApp (onlyHr "82")
        = "📋 *RELATÓRIO DE VISITA DOMICILIAR*\n\n🩺 *SINAIS VITAIS:*\n• FC: 82 bpm\n\n"
    ∧ medEntry { name := some n, dose := none, route := none, time := none }
        = "• *" ++ n ++ "*\n" ++ "\n"
    ∧ medEntry { name := none, dose := some d, route := none, time := none }
        = "• *" ++ "N/A" ++ "*\n" ++ ("  Dose: " ++ d ++ "\n") ++ "\n" := by
  refine ⟨by decide, ?_, ?_⟩ <;>
    simp [medEntry, String.append_assoc, String.append_empty]

/-- Claim C10 (confirmed): the accepted PIN value never influences any
observable output — for any two event sequences from the initial
session that differ only in which valid 6-digit PIN is submitted at
PIN-accepting points, the full output traces (replies and hand-off
request payloads) are identical; moreover every hand-off request
emitted carries the process-global API key, never the session's stored
pin. -/
theorem claim_C10_pin_noninterference (key : String)
    (evs₁ evs₂ : List Event)
    (hvar : PinVar key initSession evs₁ evs₂) :
    (runSteps key initSession evs₁).2 = (runSteps key initSession evs₂).2 ∧
    (∀ p : HandoffPayload,
      Output.handoff p ∈ (runSteps key initSession evs₁).2 →
      p.api_key = key) :=
  ⟨runSteps_pinVar_out key initSession evs₁ evs₂ hvar initSession
      (pinEquiv_refl initSession),
   fun p hp => runSteps_handoff_key key initSession evs₁ p hp⟩

/-- Witness for C10: two full conversations (greeting, PIN,
collection, finalize) that differ only in the accepted PIN (123456
versus 654321) produce identical output traces. -/
theorem claim_C10_pin_noninterference_witness :
    (runSteps "chave" initSession
        [mkTextEvent "oi", setBody (mkTextEvent "") "123456",
         mkTextEvent "2", mkTextEvent "0"]).2
      = (runSteps "chave" initSession
          [mkTextEvent "oi", setBody (mkTextEvent "") "654321",
           mkTextEvent "2", mkTextEvent "0"]).2 :=
  (claim_C10_pin_noninterference "chave" _ _
    (PinVar.same _ _ _ _
      (PinVar.pinSwap _ (mkTextEvent "") "123456" "654321" _ _
        (Or.inl (by decide)) (by decide) (by decide)
        (PinVar.same _ _ _ _
          (PinVar.same _ _ _ _
            (PinVar.nil _)))))).1

end Transcriptor
